import Mathlib

/-!
Shallow embedding of the shader-viewer core (Rust sources:
`src/graphics/shaders.rs`, `src/graphics/time.rs`, `src/graphics/buffers.rs`,
`src/context/shader_context.rs`, `src/utils/watcher.rs`, `src/main.rs`).

GPU driver calls are modelled as transitions on an explicit `GLState`
(a fresh-handle counter plus the multisets of live shader-stage and
program handles) together with an event trace recording every driver
call and every line printed to stdout/stderr, in program order.  The
driver's verdicts (does this source compile? do these stages link?) and
the filesystem are supplied by an environment, so every code path of the
Rust functions is represented.  Wall-clock instants are rationals
(seconds); `Duration::from_secs(0)` fallback of `duration_since` becomes
an explicit clamp.
-/

namespace ShaderViewer

/-- Shader stage kind (`gl::VERTEX_SHADER` / `gl::FRAGMENT_SHADER`). -/
inductive ShaderType where
  | vertex
  | fragment
deriving DecidableEq, Repr

/-- One observable action of the program: an OpenGL driver call, a file
read, or a console print.  Handles are `Nat` (0 is the invalid handle). -/
inductive Event where
  | readFile (path : String) (ok : Bool)
  | createShader (ty : ShaderType) (h : Nat)
  | compileShaderCall (h : Nat) (ok : Bool)
  | deleteShader (h : Nat)
  | createProgram (h : Nat)
  | attachShader (p h : Nat)
  | linkProgramCall (p : Nat) (ok : Bool)
  | detachShader (p h : Nat)
  | deleteProgram (h : Nat)
  | clearScreen
  | useProgram (h : Nat)
  | getUniformLocation (p : Nat) (name : String)
  | uniform1f (loc : Int) (v : ℚ)
  | uniform2f (loc : Int) (x y : ℚ)
  | bindVertexArray (h : Nat)
  | drawArraysTriangles (first count : Int)
  | swapBuffers
  | printOut (msg : String)
  | printErr (msg : String)
deriving DecidableEq, Repr

/-- GPU object bookkeeping: `next` is the next fresh handle the driver
hands out (all previously issued handles are `< next`); `liveShaders` and
`livePrograms` are the currently allocated stage/program handles. -/
structure GLState where
  next : Nat
  liveShaders : List Nat
  livePrograms : List Nat
deriving DecidableEq, Repr

/-- The filesystem: path to file contents, `none` when unreadable. -/
def FS : Type := String → Option String

/-- The environment deciding the outcomes of driver and OS calls:
compile/link verdicts and diagnostic logs keyed by source text, uniform
location lookup, current wall-clock time (seconds since the Unix epoch),
framebuffer size, and success flags for the fallible init steps. -/
structure Env where
  compileOk : ShaderType → String → Bool
  compileLog : ShaderType → String → String
  linkOk : String → String → Bool
  linkLog : String → String → String
  uniformLoc : Nat → String → Int
  now : ℚ
  framebufferW : Int
  framebufferH : Int
  glfwOk : Bool
  windowOk : Bool
  dirOk : Bool
  writeVertOk : Bool
  writeFragOk : Bool

/-- `compile_shader` (graphics/shaders.rs): create a stage handle,
compile; on driver failure fetch the log, delete the stage and return
`Err(log)`; on success return the stage handle. -/
def compile_shader (env : Env) (source : String) (ty : ShaderType) (st : GLState) :
    Except String Nat × GLState × List Event :=
  let shader := st.next
  let st1 : GLState :=
    { next := st.next + 1, liveShaders := shader :: st.liveShaders,
      livePrograms := st.livePrograms }
  if env.compileOk ty source then
    (Except.ok shader, st1,
      [Event.createShader ty shader, Event.compileShaderCall shader true])
  else
    (Except.error (env.compileLog ty source),
      { st1 with liveShaders := st1.liveShaders.erase shader },
      [Event.createShader ty shader, Event.compileShaderCall shader false,
       Event.deleteShader shader])

/-- `compile_shader_program` (graphics/shaders.rs): read both sources
(vertex first; a read failure returns 0 at once), compile vertex then
fragment (vertex failure skips fragment; fragment failure deletes the
vertex stage), link; link failure deletes the program and both stages and
returns 0; success detaches and deletes both stages and returns the
program handle.  Returns the result handle, the driver state, and the
event trace of the call. -/
def compile_shader_program (env : Env) (fs : FS) (vertPath fragPath : String)
    (st : GLState) : Nat × GLState × List Event :=
  match fs vertPath with
  | none =>
      (0, st, [Event.readFile vertPath false,
               Event.printErr ("Failed to read vertex shader: " ++ vertPath)])
  | some vertSource =>
    match fs fragPath with
    | none =>
        (0, st, [Event.readFile vertPath true, Event.readFile fragPath false,
                 Event.printErr ("Failed to read fragment shader: " ++ fragPath)])
    | some fragSource =>
      let readEvs := [Event.readFile vertPath true, Event.readFile fragPath true]
      match compile_shader env vertSource ShaderType.vertex st with
      | (Except.error e, st1, evs1) =>
          (0, st1, readEvs ++ evs1 ++
            [Event.printErr ("Vertex shader compilation failed: " ++ e)])
      | (Except.ok vertShader, st1, evs1) =>
        match compile_shader env fragSource ShaderType.fragment st1 with
        | (Except.error e, st2, evs2) =>
            (0, { st2 with liveShaders := st2.liveShaders.erase vertShader },
              readEvs ++ evs1 ++ evs2 ++
                [Event.printErr ("Fragment shader compilation failed: " ++ e),
                 Event.deleteShader vertShader])
        | (Except.ok fragShader, st2, evs2) =>
          let program := st2.next
          let st3 : GLState :=
            { next := st2.next + 1, liveShaders := st2.liveShaders,
              livePrograms := program :: st2.livePrograms }
          let linkEvs :=
            [Event.createProgram program,
             Event.attachShader program vertShader,
             Event.attachShader program fragShader]
          if env.linkOk vertSource fragSource then
            ((program : Nat),
              { st3 with
                  liveShaders :=
                    (st3.liveShaders.erase vertShader).erase fragShader },
              readEvs ++ evs1 ++ evs2 ++ linkEvs ++
                [Event.linkProgramCall program true,
                 Event.detachShader program vertShader,
                 Event.detachShader program fragShader,
                 Event.deleteShader vertShader,
                 Event.deleteShader fragShader])
          else
            (0,
              { st3 with
                  liveShaders :=
                    (st3.liveShaders.erase vertShader).erase fragShader,
                  livePrograms := st3.livePrograms.erase program },
              readEvs ++ evs1 ++ evs2 ++ linkEvs ++
                [Event.linkProgramCall program false,
                 Event.printErr ("Program linking failed: " ++
                   env.linkLog vertSource fragSource),
                 Event.deleteProgram program,
                 Event.deleteShader vertShader,
                 Event.deleteShader fragShader])

/-- `SystemTime::duration_since(earlier).unwrap_or(Duration::from_secs(0))`:
the elapsed seconds, clamped to zero when the clock went backwards. -/
def durationSince (now earlier : ℚ) : ℚ :=
  if now < earlier then 0 else now - earlier

/-- `TimeState` (graphics/time.rs): start instant, last-frame instant,
and the derived delta/total seconds. -/
structure TimeState where
  start_time : ℚ
  last_frame_time : ℚ
  delta_time : ℚ
  total_time : ℚ
deriving DecidableEq, Repr

/-- `TimeState::new` (graphics/time.rs): both instants are the current
time, delta and total start at zero. -/
def TimeState.new (now : ℚ) : TimeState :=
  { start_time := now, last_frame_time := now, delta_time := 0, total_time := 0 }

/-- `TimeState::update` (graphics/time.rs): delta is the clamped time
since the last frame, total the clamped time since start; the last-frame
instant then becomes `now`. -/
def TimeState.update (ts : TimeState) (now : ℚ) : TimeState :=
  { ts with
      delta_time := durationSince now ts.last_frame_time,
      total_time := durationSince now ts.start_time,
      last_frame_time := now }

/-- The interleaved quad vertex data of `create_vertex_buffers`
(graphics/buffers.rs): 6 vertices, 3-float position + 2-float texture
coordinate each (stride 20 bytes). -/
def quadVertices : List ℚ :=
  [-1, 1, 0, 0, 1,
   -1, -1, 0, 0, 0,
   1, -1, 0, 1, 0,
   -1, 1, 0, 0, 1,
   1, -1, 0, 1, 0,
   1, 1, 0, 1, 1]

/-- `create_vertex_buffers` (graphics/buffers.rs): allocates the VAO and
VBO handles and uploads `quadVertices`; only the handle allocation is
relevant to program state, the upload is a one-time fixed side effect. -/
def create_vertex_buffers (st : GLState) : (Nat × Nat) × GLState :=
  ((st.next, st.next + 1),
   { st with next := st.next + 2 })

/-- `ShaderContext` (context/shader_context.rs), the fields the core
mutates.  The `window`/`events`/`glfw` collaborator handles live outside
the embedded state. -/
structure ShaderContext where
  shader_program : Nat
  vao : Nat
  vbo : Nat
  time_state : TimeState
  vertex_shader_path : String
  fragment_shader_path : String
deriving DecidableEq, Repr

/-- `ShaderContext::reload_shaders` (context/shader_context.rs):
recompile from the stored paths; if the new handle is nonzero, delete
the old program and store the new handle, else leave the context as it
was.  Returns the new context, driver state and event trace. -/
def ShaderContext.reload_shaders (env : Env) (fs : FS) (ctx : ShaderContext)
    (st : GLState) : ShaderContext × GLState × List Event :=
  let r := compile_shader_program env fs ctx.vertex_shader_path
    ctx.fragment_shader_path st
  let newProgram := r.1
  if newProgram ≠ 0 then
    ({ ctx with shader_program := newProgram },
     { r.2.1 with livePrograms := r.2.1.livePrograms.erase ctx.shader_program },
     [Event.printOut "Reloading shaders..."] ++ r.2.2 ++
       [Event.deleteProgram ctx.shader_program,
        Event.printOut "Shaders reloaded successfully"])
  else
    (ctx, r.2.1,
     [Event.printOut "Reloading shaders..."] ++ r.2.2 ++
       [Event.printOut "Failed to reload shaders"])

/-- `ShaderContext::render` (context/shader_context.rs): the event trace
of one frame — clear, bind the active program, set the four uniforms
(`u_time`, `u_deltaTime`, `u_epochTime`, `u_resolution`), draw the
6-vertex quad, unbind, swap buffers. -/
def ShaderContext.render (env : Env) (ctx : ShaderContext) : List Event :=
  [Event.clearScreen,
   Event.useProgram ctx.shader_program,
   Event.getUniformLocation ctx.shader_program "u_time",
   Event.uniform1f (env.uniformLoc ctx.shader_program "u_time")
     ctx.time_state.total_time,
   Event.getUniformLocation ctx.shader_program "u_deltaTime",
   Event.uniform1f (env.uniformLoc ctx.shader_program "u_deltaTime")
     ctx.time_state.delta_time,
   Event.getUniformLocation ctx.shader_program "u_epochTime",
   Event.uniform1f (env.uniformLoc ctx.shader_program "u_epochTime")
     (durationSince env.now 0),
   Event.getUniformLocation ctx.shader_program "u_resolution",
   Event.uniform2f (env.uniformLoc ctx.shader_program "u_resolution")
     (env.framebufferW : ℚ) (env.framebufferH : ℚ),
   Event.bindVertexArray ctx.vao,
   Event.drawArraysTriangles 0 6,
   Event.bindVertexArray 0,
   Event.swapBuffers]

/-- The default vertex shader written by `create_default_shaders`
(graphics/shaders.rs) when the file is missing. -/
def defaultVertexSource : String :=
  "\x23version 330 core\nlayout (location = 0) in vec3 aPos;\nlayout (location = 1) in vec2 aTexCoord;\n\nout vec2 TexCoord;\n\nvoid main() \x7b\n  gl_Position = vec4(aPos, 1.0);\n  TexCoord = aTexCoord;\n\x7d\n"

/-- The default fragment shader written by `create_default_shaders`
(graphics/shaders.rs) when the file is missing. -/
def defaultFragmentSource : String :=
  "\x23version 330 core\nin vec2 TexCoord;\nout vec4 FragColor;\n\nuniform float u_time;\nuniform float u_deltaTime;\nuniform float u_epochTime;\nuniform vec2 u_resolution;\n\nvoid main() \x7b\n  vec2 uv = TexCoord;\n  vec3 col = 0.5 + 0.5 * cos(u_time + uv.xyx + vec3(0.0, 2.0, 4.0));\n  FragColor = vec4(col, 1.0);\n\x7d\n"

/-- A panic source during `ShaderContext::new`: the `unwrap`/`expect`
calls on GLFW init, window creation, `create_dir_all` and the default
shader `fs::write`s. -/
inductive InitError where
  | glfwInit
  | windowCreate
  | createDir
  | writeVertex
  | writeFragment
deriving DecidableEq, Repr

/-- `create_default_shaders` (graphics/shaders.rs): ensure the shaders
directory exists (`unwrap`), then write a default source to each path
whose file is missing (`expect`).  Returns the updated filesystem or the
panic that aborted construction. -/
def create_default_shaders (env : Env) (fs : FS) (vertPath fragPath : String) :
    Except InitError FS :=
  if env.dirOk then
    match fs vertPath with
    | some _ =>
      match fs fragPath with
      | some _ => Except.ok fs
      | none =>
        if env.writeFragOk then
          Except.ok (fun p => if p = fragPath then some defaultFragmentSource else fs p)
        else Except.error InitError.writeFragment
    | none =>
      if env.writeVertOk then
        let fs1 : FS := fun p => if p = vertPath then some defaultVertexSource else fs p
        match fs1 fragPath with
        | some _ => Except.ok fs1
        | none =>
          if env.writeFragOk then
            Except.ok (fun p => if p = fragPath then some defaultFragmentSource else fs1 p)
          else Except.error InitError.writeFragment
      else Except.error InitError.writeVertex
  else Except.error InitError.createDir

/-- `ShaderContext::new` (context/shader_context.rs): GLFW init and
window creation (each may panic), buffer creation, default-shader
provisioning (may panic on filesystem errors), then the initial
`compile_shader_program`, whose result — zero or not — is stored as the
program handle.  Returns the context, updated filesystem, driver state
and compile trace, or the panic that aborted construction. -/
def ShaderContext.new (env : Env) (fs : FS) (vertPath fragPath : String)
    (st : GLState) :
    Except InitError (ShaderContext × FS × GLState × List Event) :=
  if env.glfwOk then
    if env.windowOk then
      let b := create_vertex_buffers st
      match create_default_shaders env fs vertPath fragPath with
      | Except.error e => Except.error e
      | Except.ok fs1 =>
        let r := compile_shader_program env fs1 vertPath fragPath b.2
        Except.ok
          ({ shader_program := r.1, vao := b.1.1, vbo := b.1.2,
             time_state := TimeState.new env.now,
             vertex_shader_path := vertPath, fragment_shader_path := fragPath },
           fs1, r.2.1, r.2.2)
    else Except.error InitError.windowCreate
  else Except.error InitError.glfwInit

/-- An action of the watcher's event callback (utils/watcher.rs): the
debounce sleep or a `sender.send(())`. -/
inductive WatchAction where
  | sleepMs (n : Nat)
  | sendSignal
deriving DecidableEq, Repr

/-- A filesystem notification as the callback sees it: either an error,
or an event whose kind may or may not be a modification. -/
inductive NotifyInput where
  | err (msg : String)
  | evt (isModifyKind : Bool)
deriving DecidableEq, Repr

/-- The watcher callback body (utils/watcher.rs): on an `Ok` event whose
kind `is_modify()`, sleep 50 ms then send one unit signal; otherwise do
nothing. -/
def watch_callback (input : NotifyInput) : List WatchAction :=
  match input with
  | NotifyInput.err _ => []
  | NotifyInput.evt isModifyKind =>
    if isModifyKind then [WatchAction.sleepMs 50, WatchAction.sendSignal] else []

/-- A burst of filesystem notifications delivered to the callback, one
invocation per notification, actions in order. -/
def watch_burst (inputs : List NotifyInput) : List WatchAction :=
  inputs.flatMap watch_callback

/-- The number of `ReloadSignal`s a list of watcher actions pushes onto
the channel. -/
def sendCount (acts : List WatchAction) : Nat :=
  (acts.filter (fun a => a = WatchAction.sendSignal)).length

/-- `receiver.try_recv()` on the reload channel, modelled by the number
of pending signals: non-blocking, removes at most one signal. -/
def try_recv (pending : Nat) : Option Unit × Nat :=
  match pending with
  | 0 => (none, 0)
  | n + 1 => (some (), n)

/-- The reload-handling step of one main-loop iteration (main.rs):
`if receiver.try_recv().is_ok() { state.reload_shaders(); }`.  Returns
the context, driver state, remaining pending signals, and whether a
reload was performed this iteration. -/
def loop_reload_step (env : Env) (fs : FS) (ctx : ShaderContext)
    (st : GLState) (pending : Nat) : ShaderContext × GLState × Nat × Bool :=
  let r := try_recv pending
  match r.1 with
  | some _ =>
    let q := ShaderContext.reload_shaders env fs ctx st
    (q.1, q.2.1, r.2, true)
  | none => (ctx, st, r.2, false)

/-- `n` consecutive main-loop iterations with no new signals arriving:
returns the final context, driver state, remaining pending signals, and
the total number of reloads performed. -/
def run_loop (env : Env) (fs : FS) :
    ShaderContext → GLState → Nat → Nat → ShaderContext × GLState × Nat × Nat
  | ctx, st, pending, 0 => (ctx, st, pending, 0)
  | ctx, st, pending, n + 1 =>
    let r := loop_reload_step env fs ctx st pending
    let rest := run_loop env fs r.1 r.2.1 r.2.2.1 n
    (rest.1, rest.2.1, rest.2.2.1, rest.2.2.2 + (if r.2.2.2 then 1 else 0))

/-- The state of the Clock after ticks at instants `t 0, t 1, ..., t k`:
the `TimeState` is created at `t 0` (so `start_time = t 0`) and then
updated once per subsequent instant, as the main loop does once per
iteration. -/
def tickSeq (t : ℕ → ℚ) : ℕ → TimeState
  | 0 => TimeState.new (t 0)
  | k + 1 => TimeState.update (tickSeq t k) (t (k + 1))

/-- A diagnostic line names the pipeline step that failed: it is one of
the five stderr messages of `compile_shader_program`, each of which
spells out the failing step (vertex read, fragment read, vertex compile,
fragment compile, link). -/
def identifiesFailingStep (m : String) : Prop :=
  (∃ s, m = "Failed to read vertex shader: " ++ s) ∨
  (∃ s, m = "Failed to read fragment shader: " ++ s) ∨
  (∃ s, m = "Vertex shader compilation failed: " ++ s) ∨
  (∃ s, m = "Fragment shader compilation failed: " ++ s) ∨
  (∃ s, m = "Program linking failed: " ++ s)

/-- A sample driver environment in which every compile and link attempt
succeeds. -/
def sampleEnv : Env where
  compileOk := fun _ _ => true
  compileLog := fun _ _ => "log"
  linkOk := fun _ _ => true
  linkLog := fun _ _ => "llog"
  uniformLoc := fun _ _ => 7
  now := 10
  framebufferW := 800
  framebufferH := 600
  glfwOk := true
  windowOk := true
  dirOk := true
  writeVertOk := true
  writeFragOk := true

/-- A sample driver environment whose compiler rejects every source. -/
def failCompileEnv : Env :=
  { sampleEnv with compileOk := fun _ _ => false }

/-- A sample filesystem on which every read succeeds. -/
def sampleFS : FS := fun _ => some "src"

/-- A sample driver state: handles 1..3 issued, program 1 live. -/
def sampleSt : GLState where
  next := 4
  liveShaders := []
  livePrograms := [1]

/-- A sample render context holding program 1. -/
def sampleCtx : ShaderContext where
  shader_program := 1
  vao := 2
  vbo := 3
  time_state := TimeState.new 0
  vertex_shader_path := "shaders/vertex.glsl"
  fragment_shader_path := "shaders/fragment.glsl"

/-! ## Theorems -/

-- `durationSince` is subtraction clamped at zero.
lemma durationSince_eq_max (now earlier : ℚ) :
    durationSince now earlier = max (now - earlier) 0 := by
  unfold durationSince
  split_ifs with h
  · rw [max_eq_right (by linarith)]
  · rw [max_eq_left (by linarith)]

-- Updating the clock never changes the start instant.
lemma tickSeq_start_time (t : ℕ → ℚ) : ∀ k, (tickSeq t k).start_time = t 0 := by
  intro k
  induction k with
  | zero => rfl
  | succ n ih => simp [tickSeq, TimeState.update, ih]

/-- C10: `reload_shaders` modifies at most the `shader_program` field of
the context: the `vao` and `vbo` handles, the time state and the two
shader paths are the same after every call, successful or not. -/
theorem reload_touches_only_shader_program (env : Env) (fs : FS)
    (ctx : ShaderContext) (st : GLState) :
    (ShaderContext.reload_shaders env fs ctx st).1.vao = ctx.vao ∧
    (ShaderContext.reload_shaders env fs ctx st).1.vbo = ctx.vbo ∧
    (ShaderContext.reload_shaders env fs ctx st).1.time_state = ctx.time_state ∧
    (ShaderContext.reload_shaders env fs ctx st).1.vertex_shader_path =
      ctx.vertex_shader_path ∧
    (ShaderContext.reload_shaders env fs ctx st).1.fragment_shader_path =
      ctx.fragment_shader_path := by
  simp only [ShaderContext.reload_shaders]
  split <;> simp

/-- C5: the watcher callback pushes one signal per `Ok` modification
event it is handed, so a burst of two rapid modification events yields
two `ReloadSignal`s on the channel, not one; the 50 ms sleep only delays
each send, it does not coalesce the burst. -/
theorem watcher_emits_one_signal_per_event :
    sendCount (watch_burst [NotifyInput.evt true, NotifyInput.evt true]) = 2 := by
  decide

/-- C8: every `render` call binds the active program, sets the four
uniforms — `u_time` with the total elapsed seconds, `u_deltaTime` with
the seconds since the previous frame, `u_epochTime` with the clamped
seconds since the Unix epoch, and `u_resolution` with the framebuffer
width and height — then draws the 6-vertex triangle quad, then swaps
buffers, in exactly this order (the ordered event list below is a
sublist of the frame's trace, and the swap is the final event). -/
theorem render_frame_order (env : Env) (ctx : ShaderContext) :
    List.Sublist
      [Event.useProgram ctx.shader_program,
       Event.getUniformLocation ctx.shader_program "u_time",
       Event.uniform1f (env.uniformLoc ctx.shader_program "u_time")
         ctx.time_state.total_time,
       Event.getUniformLocation ctx.shader_program "u_deltaTime",
       Event.uniform1f (env.uniformLoc ctx.shader_program "u_deltaTime")
         ctx.time_state.delta_time,
       Event.getUniformLocation ctx.shader_program "u_epochTime",
       Event.uniform1f (env.uniformLoc ctx.shader_program "u_epochTime")
         (durationSince env.now 0),
       Event.getUniformLocation ctx.shader_program "u_resolution",
       Event.uniform2f (env.uniformLoc ctx.shader_program "u_resolution")
         (env.framebufferW : ℚ) (env.framebufferH : ℚ),
       Event.drawArraysTriangles 0 6,
       Event.swapBuffers]
      (ShaderContext.render env ctx) ∧
    (ShaderContext.render env ctx).getLast? = some Event.swapBuffers := by
  constructor
  · simp only [ShaderContext.render]
    refine List.Sublist.cons _ ?_
    refine List.Sublist.cons₂ _ ?_
    refine List.Sublist.cons₂ _ ?_
    refine List.Sublist.cons₂ _ ?_
    refine List.Sublist.cons₂ _ ?_
    refine List.Sublist.cons₂ _ ?_
    refine List.Sublist.cons₂ _ ?_
    refine List.Sublist.cons₂ _ ?_
    refine List.Sublist.cons₂ _ ?_
    refine List.Sublist.cons₂ _ ?_
    refine List.Sublist.cons _ ?_
    refine List.Sublist.cons₂ _ ?_
    refine List.Sublist.cons _ ?_
    exact List.Sublist.refl _
  · rfl

/-- C4 counterexample: with two signals pending, one main-loop iteration
leaves one signal still in the channel (the channel is not drained), and
two iterations perform two reloads — the pending signals do not coalesce
into a single reload; the loop does one reload per signal. -/
theorem main_loop_backlog_not_coalesced_cex :
    (loop_reload_step sampleEnv sampleFS sampleCtx sampleSt 2).2.2.1 = 1 ∧
    (run_loop sampleEnv sampleFS sampleCtx sampleSt 2 2).2.2.2 = 2 := by
  constructor
  · rfl
  · rfl

/-- C4 (amended): each main-loop iteration performs one non-blocking
`try_recv`: it removes at most one pending signal, and calls `reload`
exactly once in an iteration precisely when a signal was pending; a
backlog of `p` pending signals therefore produces `min n p` reloads over
the next `n` iterations (one reload per signal), leaving `p - n`
signals queued, rather than coalescing into a single reload. -/
theorem main_loop_consumes_one_signal_per_iteration (env : Env) (fs : FS)
    (ctx : ShaderContext) (st : GLState) (p n : ℕ) :
    (loop_reload_step env fs ctx st p).2.2.1 = p - 1 ∧
    ((loop_reload_step env fs ctx st p).2.2.2 = true ↔ 0 < p) ∧
    (run_loop env fs ctx st p n).2.2.2 = min n p ∧
    (run_loop env fs ctx st p n).2.2.1 = p - n := by
  refine ⟨?_, ?_, ?_⟩
  · cases p <;> simp [loop_reload_step, try_recv]
  · cases p <;> simp [loop_reload_step, try_recv]
  · induction n generalizing ctx st p with
    | zero => simp [run_loop]
    | succ m ih =>
      cases p with
      | zero =>
        have h0 := ih ctx st 0
        simp [run_loop, loop_reload_step, try_recv, h0.1, h0.2]
      | succ q =>
        simp only [run_loop, loop_reload_step, try_recv]
        have hq := ih (ShaderContext.reload_shaders env fs ctx st).1
          (ShaderContext.reload_shaders env fs ctx st).2.1 q
        simp [hq.1, hq.2, Nat.succ_sub_succ, Nat.succ_min_succ]

/-- C6: `compile_shader_program` short-circuits in order.  A vertex-read
failure returns at once: the trace holds only the failed vertex read and
its diagnostic — the fragment file is not read and no stage is created.
A fragment-read failure returns with both reads and the diagnostic but
no compilation.  A vertex-stage compile failure returns without any
fragment `createShader`: fragment compilation is skipped entirely. -/
theorem compile_shader_program_short_circuits (env : Env) (fs : FS)
    (vp fp : String) (st : GLState) :
    (fs vp = none →
      compile_shader_program env fs vp fp st =
        (0, st, [Event.readFile vp false,
                 Event.printErr ("Failed to read vertex shader: " ++ vp)])) ∧
    (∀ v, fs vp = some v → fs fp = none →
      compile_shader_program env fs vp fp st =
        (0, st, [Event.readFile vp true, Event.readFile fp false,
                 Event.printErr ("Failed to read fragment shader: " ++ fp)])) ∧
    (∀ v f, fs vp = some v → fs fp = some f →
      env.compileOk ShaderType.vertex v = false →
      compile_shader_program env fs vp fp st =
        (0,
         { next := st.next + 1, liveShaders := st.liveShaders,
           livePrograms := st.livePrograms },
         [Event.readFile vp true, Event.readFile fp true,
          Event.createShader ShaderType.vertex st.next,
          Event.compileShaderCall st.next false,
          Event.deleteShader st.next,
          Event.printErr ("Vertex shader compilation failed: " ++
            env.compileLog ShaderType.vertex v)])) := by
  refine ⟨fun hv => ?_, fun v hv hf => ?_, fun v f hv hf hcv => ?_⟩
  · simp [compile_shader_program, hv]
  · simp [compile_shader_program, hv, hf]
  · simp [compile_shader_program, compile_shader, hv, hf, hcv]

/-- C6 witness: on a filesystem where both reads succeed and a driver
that rejects the vertex stage, the call stops right after the failed
vertex compile. -/
theorem compile_shader_program_short_circuits_witness :
    sampleFS "a" = some "src" ∧ sampleFS "b" = some "src" ∧
    failCompileEnv.compileOk ShaderType.vertex "src" = false ∧
    compile_shader_program failCompileEnv sampleFS "a" "b" sampleSt =
      (0,
       { next := sampleSt.next + 1, liveShaders := sampleSt.liveShaders,
         livePrograms := sampleSt.livePrograms },
       [Event.readFile "a" true, Event.readFile "b" true,
        Event.createShader ShaderType.vertex sampleSt.next,
        Event.compileShaderCall sampleSt.next false,
        Event.deleteShader sampleSt.next,
        Event.printErr ("Vertex shader compilation failed: " ++
          failCompileEnv.compileLog ShaderType.vertex "src")]) :=
  ⟨rfl, rfl, rfl,
   (compile_shader_program_short_circuits failCompileEnv sampleFS "a" "b"
     sampleSt).2.2 "src" "src" rfl rfl rfl⟩

-- Whenever `compile_shader_program` returns the invalid handle 0, its
-- trace holds a stderr line naming the pipeline step that failed.
lemma compile_failure_reports_step (env : Env) (fs : FS) (vp fp : String)
    (st : GLState)
    (h : (compile_shader_program env fs vp fp st).1 = 0) :
    ∃ m, Event.printErr m ∈ (compile_shader_program env fs vp fp st).2.2 ∧
      identifiesFailingStep m := by
  rcases hv : fs vp with _ | v
  · refine ⟨"Failed to read vertex shader: " ++ vp, ?_, Or.inl ⟨vp, rfl⟩⟩
    simp [compile_shader_program, hv]
  · rcases hf : fs fp with _ | f
    · refine ⟨"Failed to read fragment shader: " ++ fp, ?_,
        Or.inr (Or.inl ⟨fp, rfl⟩)⟩
      simp [compile_shader_program, hv, hf]
    · rcases hcv : env.compileOk ShaderType.vertex v with _ | _
      · refine ⟨"Vertex shader compilation failed: " ++
          env.compileLog ShaderType.vertex v, ?_,
          Or.inr (Or.inr (Or.inl ⟨_, rfl⟩))⟩
        simp [compile_shader_program, compile_shader, hv, hf, hcv]
      · rcases hcf : env.compileOk ShaderType.fragment f with _ | _
        · refine ⟨"Fragment shader compilation failed: " ++
            env.compileLog ShaderType.fragment f, ?_,
            Or.inr (Or.inr (Or.inr (Or.inl ⟨_, rfl⟩)))⟩
          simp [compile_shader_program, compile_shader, hv, hf, hcv, hcf]
        · rcases hl : env.linkOk v f with _ | _
          · refine ⟨"Program linking failed: " ++ env.linkLog v f, ?_,
              Or.inr (Or.inr (Or.inr (Or.inr ⟨_, rfl⟩)))⟩
            simp [compile_shader_program, compile_shader, hv, hf, hcv, hcf, hl]
          · exfalso
            simp [compile_shader_program, compile_shader, hv, hf, hcv, hcf, hl]
              at h

/-- C1: when recompilation fails (`compile_shader_program` returns the
invalid handle 0), `reload_shaders` leaves the active program handle
exactly as it was — the failed result never replaces it — and the
emitted failure report names the failing pipeline step. -/
theorem reload_failure_keeps_active_program (env : Env) (fs : FS)
    (ctx : ShaderContext) (st : GLState)
    (hfail : (compile_shader_program env fs ctx.vertex_shader_path
      ctx.fragment_shader_path st).1 = 0) :
    (ShaderContext.reload_shaders env fs ctx st).1.shader_program =
      ctx.shader_program ∧
    ∃ m, Event.printErr m ∈ (ShaderContext.reload_shaders env fs ctx st).2.2 ∧
      identifiesFailingStep m := by
  obtain ⟨m, hm, hid⟩ := compile_failure_reports_step env fs
    ctx.vertex_shader_path ctx.fragment_shader_path st hfail
  constructor
  · simp [ShaderContext.reload_shaders, hfail]
  · refine ⟨m, ?_, hid⟩
    simp only [ShaderContext.reload_shaders, hfail, ne_eq, not_true_eq_false,
      if_false, ite_false]
    simp [List.mem_append, hm]

/-- C1 witness: with a driver that rejects every source, a reload from a
context holding program 1 keeps program 1 and reports the vertex-stage
failure. -/
theorem reload_failure_keeps_active_program_witness :
    (compile_shader_program failCompileEnv sampleFS
      sampleCtx.vertex_shader_path sampleCtx.fragment_shader_path
      sampleSt).1 = 0 ∧
    ((ShaderContext.reload_shaders failCompileEnv sampleFS sampleCtx
        sampleSt).1.shader_program = sampleCtx.shader_program ∧
      ∃ m, Event.printErr m ∈
          (ShaderContext.reload_shaders failCompileEnv sampleFS sampleCtx
            sampleSt).2.2 ∧
        identifiesFailingStep m) :=
  ⟨rfl, reload_failure_keeps_active_program failCompileEnv sampleFS sampleCtx
    sampleSt rfl⟩

-- Characterization of the successful `compile_shader_program` run: a
-- nonzero result forces the all-stages-succeed branch, whose result
-- handle, driver state and trace are fully determined.
lemma compile_success_spec (env : Env) (fs : FS) (vp fp : String)
    (st : GLState)
    (h : (compile_shader_program env fs vp fp st).1 ≠ 0) :
    ∃ v f, fs vp = some v ∧ fs fp = some f ∧
      env.compileOk ShaderType.vertex v = true ∧
      env.compileOk ShaderType.fragment f = true ∧
      env.linkOk v f = true ∧
      compile_shader_program env fs vp fp st =
        (st.next + 2,
         { next := st.next + 3, liveShaders := st.liveShaders,
           livePrograms := (st.next + 2) :: st.livePrograms },
         [Event.readFile vp true, Event.readFile fp true,
          Event.createShader ShaderType.vertex st.next,
          Event.compileShaderCall st.next true,
          Event.createShader ShaderType.fragment (st.next + 1),
          Event.compileShaderCall (st.next + 1) true,
          Event.createProgram (st.next + 2),
          Event.attachShader (st.next + 2) st.next,
          Event.attachShader (st.next + 2) (st.next + 1),
          Event.linkProgramCall (st.next + 2) true,
          Event.detachShader (st.next + 2) st.next,
          Event.detachShader (st.next + 2) (st.next + 1),
          Event.deleteShader st.next,
          Event.deleteShader (st.next + 1)]) := by
  rcases hv : fs vp with _ | v
  · exact absurd (by simp [compile_shader_program, hv]) h
  rcases hf : fs fp with _ | f
  · exact absurd (by simp [compile_shader_program, hv, hf]) h
  rcases hcv : env.compileOk ShaderType.vertex v with _ | _
  · exact absurd (by simp [compile_shader_program, compile_shader, hv, hf, hcv]) h
  rcases hcf : env.compileOk ShaderType.fragment f with _ | _
  · exact absurd
      (by simp [compile_shader_program, compile_shader, hv, hf, hcv, hcf]) h
  rcases hl : env.linkOk v f with _ | _
  · exact absurd
      (by simp [compile_shader_program, compile_shader, hv, hf, hcv, hcf, hl]) h
  refine ⟨v, f, rfl, rfl, hcv, hcf, hl, ?_⟩
  simp [compile_shader_program, compile_shader, hv, hf, hcv, hcf, hl]

/-- C2: when recompilation succeeds (`compile_shader_program` returns a
nonzero handle), `reload_shaders` ends with the active program equal to
the new, valid handle, distinct from the previous one (given the driver
invariant that all issued handles are below the fresh-handle counter);
the previous handle is destroyed by exactly one `deleteProgram` call in
the whole trace, and that call comes only after the entire compile/link
trace — in particular after the link-success check — as the trace shape
shows. -/
theorem reload_success_swaps_program (env : Env) (fs : FS)
    (ctx : ShaderContext) (st : GLState)
    (hold : ctx.shader_program < st.next)
    (hsucc : (compile_shader_program env fs ctx.vertex_shader_path
      ctx.fragment_shader_path st).1 ≠ 0) :
    (ShaderContext.reload_shaders env fs ctx st).1.shader_program =
      (compile_shader_program env fs ctx.vertex_shader_path
        ctx.fragment_shader_path st).1 ∧
    (ShaderContext.reload_shaders env fs ctx st).1.shader_program ≠ 0 ∧
    (ShaderContext.reload_shaders env fs ctx st).1.shader_program ≠
      ctx.shader_program ∧
    (ShaderContext.reload_shaders env fs ctx st).2.2 =
      Event.printOut "Reloading shaders..." ::
        ((compile_shader_program env fs ctx.vertex_shader_path
            ctx.fragment_shader_path st).2.2 ++
          [Event.deleteProgram ctx.shader_program,
           Event.printOut "Shaders reloaded successfully"]) ∧
    ((ShaderContext.reload_shaders env fs ctx st).2.2).count
      (Event.deleteProgram ctx.shader_program) = 1 ∧
    Event.linkProgramCall
      (compile_shader_program env fs ctx.vertex_shader_path
        ctx.fragment_shader_path st).1 true ∈
      (compile_shader_program env fs ctx.vertex_shader_path
        ctx.fragment_shader_path st).2.2 := by
  obtain ⟨v, f, hv, hf, hcv, hcf, hl, hspec⟩ := compile_success_spec env fs
    ctx.vertex_shader_path ctx.fragment_shader_path st hsucc
  have hprog : (compile_shader_program env fs ctx.vertex_shader_path
      ctx.fragment_shader_path st).1 = st.next + 2 := by rw [hspec]
  have hne : st.next + 2 ≠ ctx.shader_program := by omega
  refine ⟨?_, ?_, ?_, ?_, ?_, ?_⟩
  · simp [ShaderContext.reload_shaders, hprog]
  · simp [ShaderContext.reload_shaders, hprog]
  · simp [ShaderContext.reload_shaders, hprog, hne]
  · simp [ShaderContext.reload_shaders, hprog]
  · simp only [ShaderContext.reload_shaders, hprog]
    rw [hspec]
    simp [List.count_cons, List.count_append, Ne.symm hne]
  · rw [hspec]
    simp

/-- C2 witness: in the all-success driver environment, reloading the
sample context (program 1, fresh counter 4) installs the new program 6,
deletes program 1 exactly once and only after the link check. -/
theorem reload_success_swaps_program_witness :
    sampleCtx.shader_program < sampleSt.next ∧
    (compile_shader_program sampleEnv sampleFS sampleCtx.vertex_shader_path
      sampleCtx.fragment_shader_path sampleSt).1 ≠ 0 ∧
    ((ShaderContext.reload_shaders sampleEnv sampleFS sampleCtx
        sampleSt).1.shader_program =
      (compile_shader_program sampleEnv sampleFS sampleCtx.vertex_shader_path
        sampleCtx.fragment_shader_path sampleSt).1 ∧
    (ShaderContext.reload_shaders sampleEnv sampleFS sampleCtx
        sampleSt).1.shader_program ≠ 0 ∧
    (ShaderContext.reload_shaders sampleEnv sampleFS sampleCtx
        sampleSt).1.shader_program ≠ sampleCtx.shader_program ∧
    (ShaderContext.reload_shaders sampleEnv sampleFS sampleCtx sampleSt).2.2 =
      Event.printOut "Reloading shaders..." ::
        ((compile_shader_program sampleEnv sampleFS
            sampleCtx.vertex_shader_path sampleCtx.fragment_shader_path
            sampleSt).2.2 ++
          [Event.deleteProgram sampleCtx.shader_program,
           Event.printOut "Shaders reloaded successfully"]) ∧
    ((ShaderContext.reload_shaders sampleEnv sampleFS sampleCtx
        sampleSt).2.2).count
      (Event.deleteProgram sampleCtx.shader_program) = 1 ∧
    Event.linkProgramCall
      (compile_shader_program sampleEnv sampleFS sampleCtx.vertex_shader_path
        sampleCtx.fragment_shader_path sampleSt).1 true ∈
      (compile_shader_program sampleEnv sampleFS sampleCtx.vertex_shader_path
        sampleCtx.fragment_shader_path sampleSt).2.2) :=
  ⟨by decide, by decide,
   reload_success_swaps_program sampleEnv sampleFS sampleCtx sampleSt
     (by decide) (by decide)⟩

/-- C3: on every return path of `compile_shader_program` the live
shader-stage handles end exactly as they began — every stage created
during the call is deleted before it returns (vertex deleted when the
fragment stage fails, both stages deleted on link failure and on
success).  On failure the live programs are also unchanged (the
partially created program is deleted); on success exactly the returned
program is added, and the trace shows both stages detached and then
deleted. -/
theorem compile_shader_program_releases_stages (env : Env) (fs : FS)
    (vp fp : String) (st : GLState) :
    (compile_shader_program env fs vp fp st).2.1.liveShaders =
      st.liveShaders ∧
    ((compile_shader_program env fs vp fp st).1 = 0 →
      (compile_shader_program env fs vp fp st).2.1.livePrograms =
        st.livePrograms) ∧
    ((compile_shader_program env fs vp fp st).1 ≠ 0 →
      (compile_shader_program env fs vp fp st).2.1.livePrograms =
        (compile_shader_program env fs vp fp st).1 :: st.livePrograms ∧
      Event.detachShader (compile_shader_program env fs vp fp st).1 st.next ∈
        (compile_shader_program env fs vp fp st).2.2 ∧
      Event.detachShader (compile_shader_program env fs vp fp st).1
        (st.next + 1) ∈ (compile_shader_program env fs vp fp st).2.2 ∧
      Event.deleteShader st.next ∈ (compile_shader_program env fs vp fp st).2.2 ∧
      Event.deleteShader (st.next + 1) ∈
        (compile_shader_program env fs vp fp st).2.2) := by
  rcases hv : fs vp with _ | v
  · simp [compile_shader_program, hv]
  rcases hf : fs fp with _ | f
  · simp [compile_shader_program, hv, hf]
  rcases hcv : env.compileOk ShaderType.vertex v with _ | _
  · simp [compile_shader_program, compile_shader, hv, hf, hcv]
  rcases hcf : env.compileOk ShaderType.fragment f with _ | _
  · simp [compile_shader_program, compile_shader, hv, hf, hcv, hcf]
  rcases hl : env.linkOk v f with _ | _
  · simp [compile_shader_program, compile_shader, hv, hf, hcv, hcf, hl]
  · simp [compile_shader_program, compile_shader, hv, hf, hcv, hcf, hl]

/-- C3 witness: a successful run over the sample driver state leaves the
live stages as they were and adds exactly the returned program. -/
theorem compile_shader_program_releases_stages_witness :
    (compile_shader_program sampleEnv sampleFS "a" "b" sampleSt).1 ≠ 0 ∧
    (compile_shader_program sampleEnv sampleFS "a" "b" sampleSt).2.1.liveShaders =
      sampleSt.liveShaders ∧
    (compile_shader_program sampleEnv sampleFS "a" "b" sampleSt).2.1.livePrograms =
      (compile_shader_program sampleEnv sampleFS "a" "b" sampleSt).1 ::
        sampleSt.livePrograms :=
  ⟨by decide,
   (compile_shader_program_releases_stages sampleEnv sampleFS "a" "b" sampleSt).1,
   ((compile_shader_program_releases_stages sampleEnv sampleFS "a" "b"
       sampleSt).2.2 (by decide)).1⟩

-- With the directory and default-file writes succeeding,
-- `create_default_shaders` never aborts.
lemma create_default_shaders_ok (env : Env) (fs : FS) (vp fp : String)
    (hd : env.dirOk = true) (hv : env.writeVertOk = true)
    (hf : env.writeFragOk = true) :
    ∃ fs1, create_default_shaders env fs vp fp = Except.ok fs1 := by
  unfold create_default_shaders
  rcases h1 : fs vp with _ | v
  · rcases h2 : (fun p => if p = vp then some defaultVertexSource else fs p) fp
      with _ | f
    · simp [hd, hv, hf, h1, h2]
    · simp [hd, hv, hf, h1, h2]
  · rcases h2 : fs fp with _ | f
    · simp [hd, hv, hf, h1, h2]
    · simp [hd, hv, hf, h1, h2]

/-- C9: construction of the render context never aborts because of
shader read, compile or link errors: as long as the non-shader init
steps succeed (GLFW, window, shader-directory creation, default-file
writes), `ShaderContext.new` returns a context for every compile
outcome, its program handle is whatever `compile_shader_program`
returned, and in particular it is the invalid handle 0 whenever the
initial compilation failed. -/
theorem context_new_survives_shader_errors (env : Env) (fs : FS)
    (vp fp : String) (st : GLState)
    (hg : env.glfwOk = true) (hw : env.windowOk = true)
    (hd : env.dirOk = true) (hv : env.writeVertOk = true)
    (hf : env.writeFragOk = true) :
    ∃ ctx fs1 st1 evs,
      ShaderContext.new env fs vp fp st = Except.ok (ctx, fs1, st1, evs) ∧
      ctx.shader_program =
        (compile_shader_program env fs1 vp fp (create_vertex_buffers st).2).1 ∧
      ctx.vao = (create_vertex_buffers st).1.1 ∧
      ctx.vbo = (create_vertex_buffers st).1.2 ∧
      ctx.time_state = TimeState.new env.now ∧
      ((compile_shader_program env fs1 vp fp (create_vertex_buffers st).2).1 = 0 →
        ctx.shader_program = 0) := by
  obtain ⟨fs1, hfs1⟩ := create_default_shaders_ok env fs vp fp hd hv hf
  refine ⟨⟨(compile_shader_program env fs1 vp fp (create_vertex_buffers st).2).1,
      (create_vertex_buffers st).1.1, (create_vertex_buffers st).1.2,
      TimeState.new env.now, vp, fp⟩,
    fs1, (compile_shader_program env fs1 vp fp (create_vertex_buffers st).2).2.1,
    (compile_shader_program env fs1 vp fp (create_vertex_buffers st).2).2.2,
    ?_, rfl, rfl, rfl, rfl, fun h => h⟩
  simp [ShaderContext.new, hg, hw, hfs1]

/-- C9 witness: with every source rejected by the driver but all
non-shader init steps succeeding, construction completes and the stored
handle is 0. -/
theorem context_new_survives_shader_errors_witness :
    failCompileEnv.glfwOk = true ∧ failCompileEnv.windowOk = true ∧
    failCompileEnv.dirOk = true ∧ failCompileEnv.writeVertOk = true ∧
    failCompileEnv.writeFragOk = true ∧
    ∃ ctx fs1 st1 evs,
      ShaderContext.new failCompileEnv sampleFS "a" "b" sampleSt =
        Except.ok (ctx, fs1, st1, evs) ∧
      ctx.shader_program =
        (compile_shader_program failCompileEnv fs1 "a" "b"
          (create_vertex_buffers sampleSt).2).1 ∧
      ctx.vao = (create_vertex_buffers sampleSt).1.1 ∧
      ctx.vbo = (create_vertex_buffers sampleSt).1.2 ∧
      ctx.time_state = TimeState.new failCompileEnv.now ∧
      ((compile_shader_program failCompileEnv fs1 "a" "b"
          (create_vertex_buffers sampleSt).2).1 = 0 →
        ctx.shader_program = 0) :=
  ⟨rfl, rfl, rfl, rfl, rfl,
   context_new_survives_shader_errors failCompileEnv sampleFS "a" "b" sampleSt
     rfl rfl rfl rfl rfl⟩

/-- C7: each `update` (tick) sets `delta_time` to `now - last_frame_time`
and `total_time` to `now - start_time`, each clamped to zero when the
clock reports a negative interval, then sets `last_frame_time := now`
without touching `start_time`; consequently, for ticks at strictly
increasing instants `t 0 < t 1 < ...` on a clock created at `t 0`, the
total after the tick at `t k` equals `t k - t 0`, and totals are
non-decreasing along the sequence. -/
theorem tick_time_spec (t : ℕ → ℚ) (hmono : StrictMono t) :
    (∀ ts now, (TimeState.update ts now).delta_time =
        max (now - ts.last_frame_time) 0 ∧
      (TimeState.update ts now).total_time = max (now - ts.start_time) 0 ∧
      (TimeState.update ts now).last_frame_time = now ∧
      (TimeState.update ts now).start_time = ts.start_time) ∧
    (∀ k, (tickSeq t k).total_time = t k - t 0) ∧
    (∀ k j, k ≤ j → (tickSeq t k).total_time ≤ (tickSeq t j).total_time) := by
  have hupd : ∀ ts now, (TimeState.update ts now).delta_time =
      max (now - ts.last_frame_time) 0 ∧
      (TimeState.update ts now).total_time = max (now - ts.start_time) 0 ∧
      (TimeState.update ts now).last_frame_time = now ∧
      (TimeState.update ts now).start_time = ts.start_time := by
    intro ts now
    refine ⟨durationSince_eq_max now ts.last_frame_time,
      durationSince_eq_max now ts.start_time, rfl, rfl⟩
  have htotal : ∀ k, (tickSeq t k).total_time = t k - t 0 := by
    intro k
    cases k with
    | zero => simp [tickSeq, TimeState.new]
    | succ n =>
      have hle : t 0 ≤ t (n + 1) := hmono.monotone (Nat.zero_le _)
      have hst := tickSeq_start_time t n
      simp only [tickSeq, TimeState.update, durationSince, hst]
      rw [if_neg (by linarith)]
  refine ⟨hupd, htotal, ?_⟩
  intro k j hkj
  rw [htotal k, htotal j]
  have := hmono.monotone hkj
  linarith

/-- C7 witness: ticking at the strictly increasing instants 0, 1, 2, ...
gives total time 3 after the third tick. -/
theorem tick_time_spec_witness :
    StrictMono (fun k : ℕ => (k : ℚ)) ∧
    (tickSeq (fun k : ℕ => (k : ℚ)) 3).total_time =
      ((3 : ℕ) : ℚ) - ((0 : ℕ) : ℚ) :=
  ⟨Nat.strictMono_cast,
   (tick_time_spec (fun k : ℕ => (k : ℚ)) Nat.strictMono_cast).2.1 3⟩

end ShaderViewer
